import Mathlib

/-!
# Verification of the PV display helper packet protocol

A shallow embedding, in Lean 4, of the core of `pv-display-helper`:
the CRC-16/CCITT checksum (`common.h`, `__pv_helper_checksum`), the framed
packet codec (`common.h`, `__send_packet`; `pv_display_helper.c` /
`pv_display_backend_helper.c`, the streaming receive loops), the
dirty-rectangle policy (`pv_display_invalidate_region`), the cursor image
loader (`copy_image` / `pv_display_load_cursor_image`), capability
advertisement, handler registration and the fatal-error paths.

Machine integers are modelled as `Nat` with explicit truncation where the C
code truncates; byte buffers are `List Nat` with every entry `< 256`; C
functions that may fail return explicit result values (`Int` error codes,
as in the source: `-ENOENT = -2`, `-ENXIO = -6`, `-EAGAIN = -11`,
`-ENOMEM = -12`, `-EINVAL = -22`).
-/

namespace PvDisplayHelper

/-! ## CRC-16/CCITT (`common.h`, `crc_tbl` and `__pv_helper_checksum`) -/

/-- CRC look-up table for the CRC-16-CCITT algorithm (`common.h:482`). -/
def crc_tbl : List Nat :=
  [0x0000, 0x1081, 0x2102, 0x3183,
   0x4204, 0x5285, 0x6306, 0x7387,
   0x8408, 0x9489, 0xa50a, 0xb58b,
   0xc60c, 0xd68d, 0xe70e, 0xf78f]

/-- One nibble update of `__pv_helper_checksum`:
`crc = ((crc >> 4) & 0x0fff) ^ crc_tbl[((crc ^ c) & 15)]`. -/
def crcNibbleStep (crc c : Nat) : Nat :=
  ((crc >>> 4) &&& 0x0fff) ^^^ crc_tbl.getD ((crc ^^^ c) &&& 15) 0

/-- One byte of the inner loop of `__pv_helper_checksum`: the nibble update
is run on the byte `c`, then on `c >>= 4`. -/
def crcByteStep (crc c : Nat) : Nat :=
  crcNibbleStep (crcNibbleStep crc c) (c >>> 4)

/-- The un-complemented CRC state after processing `data`, starting from the
initial value `0xffff` (`__pv_helper_checksum`, sections concatenated). -/
def crcRaw (data : List Nat) : Nat :=
  data.foldl crcByteStep 0xffff

/-- `__pv_helper_checksum`'s return value `~crc & 0xffff`: the bitwise
complement of the 16-bit CRC state, i.e. XOR with `0xffff`. -/
def dh_crc16 (data : List Nat) : Nat :=
  0xffff ^^^ crcRaw data

/-! ### CRC facts -/

lemma crc_tbl_getD_lt (j : Nat) (hj : j < 16) : crc_tbl.getD j 0 < 65536 := by
  interval_cases j <;> decide

lemma crc_tbl_shiftRight (j : Nat) (hj : j < 16) :
    crc_tbl.getD j 0 >>> 12 = j := by
  interval_cases j <;> decide

lemma and_15_lt (x : Nat) : x &&& 15 < 16 := by
  have h : x &&& 15 = x % 16 := Nat.and_pow_two_sub_one_eq_mod x 4
  omega

/-- XOR distributes over right shift. -/
lemma shiftRight_xor_distrib (a b n : Nat) :
    (a ^^^ b) >>> n = (a >>> n) ^^^ (b >>> n) := by
  apply Nat.eq_of_testBit_eq
  intro i
  simp [Nat.testBit_shiftRight, Nat.testBit_xor]

lemma xor_left_cancel {a b c : Nat} (h : a ^^^ b = a ^^^ c) : b = c := by
  have := congrArg (a ^^^ ·) h
  simpa [← Nat.xor_assoc] using this

lemma xor_right_cancel {a b c : Nat} (h : a ^^^ c = b ^^^ c) : a = b := by
  have := congrArg (· ^^^ c) h
  simpa [Nat.xor_assoc] using this

lemma xor_ne_self {a d : Nat} (hd : d ≠ 0) : a ^^^ d ≠ a := by
  intro h
  apply hd
  have h' : a ^^^ d = a ^^^ 0 := by simpa using h
  exact xor_left_cancel h'

/-- The low 12 bits of the shifted state do not reach bit 12, so the top
nibble of a nibble step recovers the table index. -/
lemma crcNibbleStep_shiftRight12 (crc c : Nat) :
    crcNibbleStep crc c >>> 12 = (crc ^^^ c) &&& 15 := by
  unfold crcNibbleStep
  rw [shiftRight_xor_distrib]
  have h1 : ((crc >>> 4) &&& 0x0fff) < 2 ^ 12 := by
    have h : (crc >>> 4) &&& 0x0fff = (crc >>> 4) % 4096 :=
      Nat.and_pow_two_sub_one_eq_mod _ 12
    have := Nat.mod_lt (crc >>> 4) (y := 4096) (by norm_num)
    omega
  have h2 : ((crc >>> 4) &&& 0x0fff) >>> 12 = 0 := by
    rw [Nat.shiftRight_eq_div_pow]
    exact Nat.div_eq_of_lt h1
  rw [h2, crc_tbl_shiftRight _ (and_15_lt _), Nat.zero_xor]

lemma crcNibbleStep_lt (crc c : Nat) : crcNibbleStep crc c < 65536 := by
  unfold crcNibbleStep
  have h1 : ((crc >>> 4) &&& 0x0fff) < 65536 := by
    have h : (crc >>> 4) &&& 0x0fff = (crc >>> 4) % 4096 :=
      Nat.and_pow_two_sub_one_eq_mod _ 12
    have := Nat.mod_lt (crc >>> 4) (y := 4096) (by norm_num)
    omega
  have h2 := crc_tbl_getD_lt _ (and_15_lt (crc ^^^ c))
  have e : (2 : Nat) ^ 16 = 65536 := by norm_num
  have : ((crc >>> 4) &&& 0x0fff) ^^^ crc_tbl.getD ((crc ^^^ c) &&& 15) 0
      < 2 ^ 16 := Nat.xor_lt_two_pow (by omega) (by omega)
  omega

lemma crcByteStep_lt (crc c : Nat) : crcByteStep crc c < 65536 :=
  crcNibbleStep_lt _ _

/-- A nibble step is injective in the CRC state (for 16-bit states). -/
lemma crcNibbleStep_inj (c : Nat) {a b : Nat}
    (ha : a < 65536) (hb : b < 65536)
    (h : crcNibbleStep a c = crcNibbleStep b c) : a = b := by
  have hj : (a ^^^ c) &&& 15 = (b ^^^ c) &&& 15 := by
    have := congrArg (· >>> 12) h
    simpa [crcNibbleStep_shiftRight12] using this
  have hlow : a &&& 15 = b &&& 15 := by
    have ha' : (a ^^^ c) &&& 15 = (a &&& 15) ^^^ (c &&& 15) :=
      Nat.and_xor_distrib_right
    have hbFlip : (b ^^^ c) &&& 15 = (b &&& 15) ^^^ (c &&& 15) :=
      Nat.and_xor_distrib_right
    exact xor_right_cancel (ha' ▸ hbFlip ▸ hj)
  have htbl : crc_tbl.getD ((a ^^^ c) &&& 15) 0 =
      crc_tbl.getD ((b ^^^ c) &&& 15) 0 := by rw [hj]
  have hhigh : (a >>> 4) &&& 0x0fff = (b >>> 4) &&& 0x0fff := by
    unfold crcNibbleStep at h
    exact xor_right_cancel (htbl ▸ h)
  have ha4 : a >>> 4 < 4096 := by
    rw [Nat.shiftRight_eq_div_pow]; omega
  have hb4 : b >>> 4 < 4096 := by
    rw [Nat.shiftRight_eq_div_pow]; omega
  have hahigh : (a >>> 4) &&& 0x0fff = a >>> 4 := by
    have h : (a >>> 4) &&& 0x0fff = (a >>> 4) % 4096 :=
      Nat.and_pow_two_sub_one_eq_mod _ 12
    rw [h, Nat.mod_eq_of_lt ha4]
  have hbhigh : (b >>> 4) &&& 0x0fff = b >>> 4 := by
    have h : (b >>> 4) &&& 0x0fff = (b >>> 4) % 4096 :=
      Nat.and_pow_two_sub_one_eq_mod _ 12
    rw [h, Nat.mod_eq_of_lt hb4]
  have hdiv : a >>> 4 = b >>> 4 := by rw [← hahigh, ← hbhigh, hhigh]
  have hdiv' : a / 16 = b / 16 := by
    have h1 : a >>> 4 = a / 16 := by rw [Nat.shiftRight_eq_div_pow]
    have h2 : b >>> 4 = b / 16 := by rw [Nat.shiftRight_eq_div_pow]
    omega
  have hmod : a % 16 = b % 16 := by
    have h1 : a &&& 15 = a % 16 := Nat.and_pow_two_sub_one_eq_mod a 4
    have h2 : b &&& 15 = b % 16 := Nat.and_pow_two_sub_one_eq_mod b 4
    omega
  omega

/-- If the two nibbles fed to a nibble step differ, the results differ. -/
lemma crcNibbleStep_ne (crc : Nat) {c c' : Nat}
    (h : c &&& 15 ≠ c' &&& 15) :
    crcNibbleStep crc c ≠ crcNibbleStep crc c' := by
  intro heq
  apply h
  have hj : (crc ^^^ c) &&& 15 = (crc ^^^ c') &&& 15 := by
    have := congrArg (· >>> 12) heq
    simpa [crcNibbleStep_shiftRight12] using this
  have hc : (crc ^^^ c) &&& 15 = (crc &&& 15) ^^^ (c &&& 15) :=
    Nat.and_xor_distrib_right
  have hc' : (crc ^^^ c') &&& 15 = (crc &&& 15) ^^^ (c' &&& 15) :=
    Nat.and_xor_distrib_right
  exact xor_left_cancel (hc ▸ hc' ▸ hj)

/-- A byte step is injective in the CRC state (for 16-bit states). -/
lemma crcByteStep_inj (c : Nat) {a b : Nat}
    (ha : a < 65536) (hb : b < 65536)
    (h : crcByteStep a c = crcByteStep b c) : a = b := by
  unfold crcByteStep at h
  exact crcNibbleStep_inj c ha hb
    (crcNibbleStep_inj (c >>> 4) (crcNibbleStep_lt _ _) (crcNibbleStep_lt _ _) h)

/-- Flipping one bit of the byte fed to a byte step changes the result. -/
lemma crcByteStep_flip (crc c k : Nat) (hk : k < 8) :
    crcByteStep crc c ≠ crcByteStep crc (c ^^^ 2 ^ k) := by
  rcases Nat.lt_or_ge k 4 with hk4 | hk4
  · -- the flip lands in the low nibble: the first nibble steps differ,
    -- and the second nibble steps use the same nibble, so stay different
    have hlow : c &&& 15 ≠ (c ^^^ 2 ^ k) &&& 15 := by
      rw [Nat.and_xor_distrib_right]
      have hpow : (2 ^ k) &&& 15 = 2 ^ k := by
        interval_cases k <;> decide
      rw [hpow]
      intro h
      exact xor_ne_self (a := c &&& 15) (d := 2 ^ k) ((Nat.two_pow_pos k).ne') h.symm
    have hfirst : crcNibbleStep crc c ≠ crcNibbleStep crc (c ^^^ 2 ^ k) :=
      crcNibbleStep_ne _ hlow
    have hshift : (c ^^^ 2 ^ k) >>> 4 = c >>> 4 := by
      rw [shiftRight_xor_distrib]
      have : (2 ^ k) >>> 4 = 0 := by interval_cases k <;> decide
      simp [this]
    unfold crcByteStep
    rw [hshift]
    intro h
    exact hfirst (crcNibbleStep_inj _ (crcNibbleStep_lt _ _) (crcNibbleStep_lt _ _) h)
  · -- the flip lands in the high nibble: the first nibble steps agree,
    -- but the second nibble differs
    have hlow : (c ^^^ 2 ^ k) &&& 15 = c &&& 15 := by
      rw [Nat.and_xor_distrib_right]
      have hpow : (2 ^ k) &&& 15 = 0 := by
        interval_cases k <;> decide
      simp [hpow]
    have hfirst : crcNibbleStep crc (c ^^^ 2 ^ k) = crcNibbleStep crc c := by
      unfold crcNibbleStep
      rw [Nat.and_xor_distrib_right, hlow, ← Nat.and_xor_distrib_right]
    have hshift : (c ^^^ 2 ^ k) >>> 4 = (c >>> 4) ^^^ 2 ^ (k - 4) := by
      rw [shiftRight_xor_distrib]
      have : (2 ^ k) >>> 4 = 2 ^ (k - 4) := by
        interval_cases k <;> decide
      rw [this]
    have hsecond : (c >>> 4) &&& 15 ≠ ((c ^^^ 2 ^ k) >>> 4) &&& 15 := by
      rw [hshift, Nat.and_xor_distrib_right]
      have hpow : (2 ^ (k - 4)) &&& 15 = 2 ^ (k - 4) := by
        interval_cases k <;> decide
      rw [hpow]
      intro h
      exact xor_ne_self (a := (c >>> 4) &&& 15) (d := 2 ^ (k - 4))
        ((Nat.two_pow_pos _).ne') h.symm
    unfold crcByteStep
    rw [hfirst]
    exact crcNibbleStep_ne _ hsecond

lemma crcFoldl_lt (s : List Nat) (crc : Nat) (h : crc < 65536) :
    s.foldl crcByteStep crc < 65536 := by
  induction s generalizing crc with
  | nil => exact h
  | cons c t ih => exact ih _ (crcByteStep_lt _ _)

lemma crcRaw_lt (s : List Nat) : crcRaw s < 65536 :=
  crcFoldl_lt s 0xffff (by norm_num)

lemma dh_crc16_lt (s : List Nat) : dh_crc16 s < 65536 := by
  unfold dh_crc16
  have h := crcRaw_lt s
  have e : (2 : Nat) ^ 16 = 65536 := by norm_num
  have := Nat.xor_lt_two_pow (x := 0xffff) (y := crcRaw s) (n := 16)
    (by omega) (by omega)
  omega

lemma crcFoldl_inj (s : List Nat) {a b : Nat}
    (ha : a < 65536) (hb : b < 65536)
    (h : s.foldl crcByteStep a = s.foldl crcByteStep b) : a = b := by
  induction s generalizing a b with
  | nil => exact h
  | cons c t ih =>
      exact crcByteStep_inj c ha hb
        (ih (crcByteStep_lt _ _) (crcByteStep_lt _ _) h)

/-- Flipping a single bit of a single byte of a message changes its raw CRC
state: CRC-16/CCITT detects all single-bit errors. -/
lemma crcRaw_flip (pre suf : List Nat) (b k : Nat) (hk : k < 8) :
    crcRaw (pre ++ b :: suf) ≠ crcRaw (pre ++ (b ^^^ 2 ^ k) :: suf) := by
  unfold crcRaw
  rw [List.foldl_append, List.foldl_append]
  set crc0 := pre.foldl crcByteStep 0xffff with hcrc0
  have h0 : crc0 < 65536 := crcFoldl_lt pre _ (by norm_num)
  simp only [List.foldl_cons]
  intro h
  exact crcByteStep_flip crc0 b k hk
    (crcFoldl_inj suf (crcByteStep_lt _ _) (crcByteStep_lt _ _) h)

/-- Flipping a single bit of a single byte of a message changes its
complemented CRC-16. -/
lemma dh_crc16_flip (pre suf : List Nat) (b k : Nat) (hk : k < 8) :
    dh_crc16 (pre ++ b :: suf) ≠ dh_crc16 (pre ++ (b ^^^ 2 ^ k) :: suf) := by
  unfold dh_crc16
  intro h
  exact crcRaw_flip pre suf b k hk (xor_left_cancel h)

/-! ## Wire format (`pv_driver_interface.h`)

All multi-byte integers are little-endian and packed without padding
(`#pragma pack(push, 1)`); buffers are byte lists. -/

def PV_DRIVER_MAGIC1 : Nat := 0xC0DE
def PV_DRIVER_MAGIC2 : Nat := 0x5AFE
def PV_DRIVER_INTERFACE_VERSION : Nat := 0x00000001
def PV_DRIVER_CURSOR_WIDTH : Nat := 64
def PV_DRIVER_CURSOR_HEIGHT : Nat := 64

def PACKET_TYPE_CONTROL_DRIVER_CAPABILITIES : Nat := 1
def PACKET_TYPE_CONTROL_HOST_DISPLAY_LIST : Nat := 2
def PACKET_TYPE_CONTROL_ADVERTISED_DISPLAY_LIST : Nat := 3
def PACKET_TYPE_CONTROL_ADD_DISPLAY : Nat := 4
def PACKET_TYPE_CONTROL_REMOVE_DISPLAY : Nat := 5
def PACKET_TYPE_CONTROL_DISPLAY_NO_LONGER_AVAILABLE : Nat := 6
def PACKET_TYPE_CONTROL_TEXT_MODE : Nat := 7

def PACKET_TYPE_EVENT_SET_DISPLAY : Nat := 101
def PACKET_TYPE_EVENT_UPDATE_CURSOR : Nat := 102
def PACKET_TYPE_EVENT_MOVE_CURSOR : Nat := 103
def PACKET_TYPE_EVENT_BLANK_DISPLAY : Nat := 104

def DH_CAP_LFB : Nat := 1
def DH_CAP_HW_CURSOR : Nat := 2
def DH_CAP_RESIZE : Nat := 4
def DH_CAP_RECONNECT : Nat := 8
def DH_CAP_HOTPLUG : Nat := 16
def DH_CAP_BLANKING : Nat := 32

/-- Little-endian byte image of a `uint16_t`. -/
def le16 (v : Nat) : List Nat := [v % 256, v / 256 % 256]

/-- Little-endian byte image of a `uint32_t`. -/
def le32 (v : Nat) : List Nat :=
  [v % 256, v / 256 % 256, v / 65536 % 256, v / 16777216 % 256]

/-- Little-endian `uint16_t` read from the first two bytes of a buffer. -/
def rd16 (s : List Nat) : Nat := s.getD 0 0 + 256 * s.getD 1 0

/-- Little-endian `uint32_t` read from the first four bytes of a buffer. -/
def rd32 (s : List Nat) : Nat :=
  s.getD 0 0 + 256 * s.getD 1 0 + 65536 * s.getD 2 0 + 16777216 * s.getD 3 0

/-- `struct dh_header` (`pv_driver_interface.h:416`): 16 bytes. -/
structure dh_header where
  magic1 : Nat
  magic2 : Nat
  type : Nat
  length : Nat
  dh_reserved_word : Nat
deriving DecidableEq, Repr

/-- `struct dh_footer` (`pv_driver_interface.h:478`): 8 bytes. -/
structure dh_footer where
  crc : Nat
  dh_reserved_halfword : Nat
  dh_reserved_word : Nat
deriving DecidableEq, Repr

/-- The packed in-memory byte image of a `struct dh_header`. -/
def headerBytes (h : dh_header) : List Nat :=
  le16 h.magic1 ++ le16 h.magic2 ++ le32 h.type ++ le32 h.length ++
    le32 h.dh_reserved_word

/-- The packed in-memory byte image of a `struct dh_footer`. -/
def footerBytes (f : dh_footer) : List Nat :=
  le16 f.crc ++ le16 f.dh_reserved_halfword ++ le32 f.dh_reserved_word

/-- Reading a `struct dh_header` from the first 16 bytes of a buffer
(what `libivc_recv(..., sizeof(struct dh_header))` stores into
`current_packet_header`). -/
def parseHeader (s : List Nat) : dh_header :=
  { magic1 := rd16 s
    magic2 := rd16 (s.drop 2)
    type := rd32 (s.drop 4)
    length := rd32 (s.drop 8)
    dh_reserved_word := rd32 (s.drop 12) }

/-! ### Serialization lemmas -/

lemma getD_drop (l : List Nat) (n m : Nat) :
    (l.drop n).getD m 0 = l.getD (n + m) 0 := by
  simp [List.getD_eq_getElem?_getD, List.getElem?_drop]

lemma headerBytes_length (h : dh_header) : (headerBytes h).length = 16 := by
  simp [headerBytes, le16, le32]

lemma footerBytes_length (f : dh_footer) : (footerBytes f).length = 8 := by
  simp [footerBytes, le16, le32]

/-- Parsing the byte image of a header recovers the header, provided the
fields fit their C types. -/
lemma parseHeader_headerBytes (h : dh_header) (t : List Nat)
    (h1 : h.magic1 < 65536) (h2 : h.magic2 < 65536)
    (h3 : h.type < 4294967296) (h4 : h.length < 4294967296)
    (h5 : h.dh_reserved_word < 4294967296) :
    parseHeader (headerBytes h ++ t) = h := by
  cases h with
  | mk m1 m2 ty len res =>
      simp only [headerBytes, le16, le32, List.cons_append, List.nil_append,
        parseHeader, rd16, rd32, List.drop_succ_cons, List.drop_zero,
        List.getD_cons_zero, List.getD_cons_succ, dh_header.mk.injEq] at *
      refine ⟨?_, ?_, ?_, ?_, ?_⟩ <;> omega


lemma take_eq_map_range (s : List Nat) (n : Nat) (h : n ≤ s.length) :
    s.take n = (List.range n).map (fun i => s.getD i 0) := by
  apply List.ext_getElem
  · simpa using h
  · intro i h1 h2
    have hi : i < n := by simpa using h2
    have hi' : i < s.length := lt_of_lt_of_le hi h
    simp [List.getElem_take, List.getD_eq_getElem?_getD,
      List.getElem?_eq_getElem hi']

/-- Re-serializing a parsed header reproduces the first 16 bytes of the
buffer, provided they are bytes. -/
lemma headerBytes_parseHeader (s : List Nat) (hlen : 16 ≤ s.length)
    (hb : ∀ j, j < 16 → s.getD j 0 < 256) :
    headerBytes (parseHeader s) = s.take 16 := by
  have h0 := hb 0 (by norm_num);  have h1 := hb 1 (by norm_num)
  have h2 := hb 2 (by norm_num);  have h3 := hb 3 (by norm_num)
  have h4 := hb 4 (by norm_num);  have h5 := hb 5 (by norm_num)
  have h6 := hb 6 (by norm_num);  have h7 := hb 7 (by norm_num)
  have h8 := hb 8 (by norm_num);  have h9 := hb 9 (by norm_num)
  have h10 := hb 10 (by norm_num); have h11 := hb 11 (by norm_num)
  have h12 := hb 12 (by norm_num); have h13 := hb 13 (by norm_num)
  have h14 := hb 14 (by norm_num); have h15 := hb 15 (by norm_num)
  rw [take_eq_map_range s 16 hlen]
  have hrange : List.range 16 = [0, 1, 2, 3, 4, 5, 6, 7, 8, 9, 10, 11, 12, 13, 14, 15] := by
    decide
  rw [hrange]
  simp only [List.map_cons, List.map_nil]
  simp only [headerBytes, parseHeader, le16, le32, rd16, rd32, getD_drop,
    List.cons_append, List.nil_append, List.cons.injEq, and_true]
  simp only [List.getD_eq_getElem?_getD] at h0 h1 h2 h3 h4 h5 h6 h7 h8 h9
  simp only [List.getD_eq_getElem?_getD] at h10 h11 h12 h13 h14 h15
  norm_num
  refine ⟨?_, ?_, ?_, ?_, ?_, ?_, ?_, ?_, ?_, ?_, ?_, ?_, ?_, ?_, ?_, ?_⟩ <;> omega

/-! ## Packet transmission (`common.h`, `__send_packet`) -/

/-- The byte image of the transmit buffer built by `__send_packet`
(`common.h:578`): header (magics, type, length; the reserved word stays 0
because `pv_helper_malloc` zeroes the buffer), payload, then a footer whose
CRC is the checksum of header plus payload and whose reserved fields stay 0. -/
def send_packet_bytes (type : Nat) (data : List Nat) : List Nat :=
  let header : dh_header :=
    { magic1 := PV_DRIVER_MAGIC1, magic2 := PV_DRIVER_MAGIC2,
      type := type, length := data.length, dh_reserved_word := 0 }
  let crc := dh_crc16 (headerBytes header ++ data)
  headerBytes header ++ data ++
    footerBytes { crc := crc, dh_reserved_halfword := 0, dh_reserved_word := 0 }

lemma send_packet_bytes_length (type : Nat) (data : List Nat) :
    (send_packet_bytes type data).length = data.length + 24 := by
  simp [send_packet_bytes, headerBytes_length, footerBytes_length]
  omega

/-- The transport-facing behaviour of one `__send_packet` call: whether the
channel is open (`libivc_isOpen`), whether `pv_helper_malloc` succeeds,
the result of `libivc_getAvailableSpace` (`none` models a non-zero return
`query_rc`), and the return code of `libivc_send` when it is reached. -/
structure send_env where
  isOpen : Bool
  alloc_ok : Bool
  space_query : Option Nat
  query_rc : Int
  send_rc : Int

/-- `__send_packet` (`common.h:578`): returns the C return code and the list
of byte buffers handed to `libivc_send` (at most one, sent in one call). -/
def __send_packet (env : send_env) (type : Nat) (data : List Nat) :
    Int × List (List Nat) :=
  if ¬env.isOpen then (-2, [])                -- -ENOENT
  else if ¬env.alloc_ok then (-12, [])        -- -ENOMEM
  else
    let packet := send_packet_bytes type data
    match env.space_query with
    | none => (env.query_rc, [])
    | some available =>
        if available < packet.length then (-12, [])   -- -ENOMEM
        else (env.send_rc, [packet])

/-! ## Consumer outbound operations (`pv_display_backend_helper.c`) -/

/-- `consumer_add_display` (`pv_display_backend_helper.c:1256`): builds a
`struct dh_add_display` payload, sends it, logs any failure, and returns 0. -/
def consumer_add_display (env : send_env)
    (key event_port framebuffer_port dirty_rectangles_port
      cursor_bitmap_port : Nat) : Int × List (List Nat) :=
  let payload := le32 key ++ le32 event_port ++ le32 framebuffer_port ++
    le32 dirty_rectangles_port ++ le32 cursor_bitmap_port
  let r := __send_packet env PACKET_TYPE_CONTROL_ADD_DISPLAY payload
  (0, r.2)

/-- `consumer_remove_display` (`pv_display_backend_helper.c:1288`): builds a
`struct dh_remove_display` payload, sends it, logs any failure, returns 0. -/
def consumer_remove_display (env : send_env) (key : Nat) :
    Int × List (List Nat) :=
  let r := __send_packet env PACKET_TYPE_CONTROL_REMOVE_DISPLAY (le32 key)
  (0, r.2)

/-- C8: `__send_packet` fails with `-ENOENT` and emits nothing on a closed
channel; with the channel open and the receive buffer allocated, it fails
with `-ENOMEM` (the resource-exhausted error) and emits nothing when the
transport's available space is smaller than the full packet
(header + payload + footer = `|data| + 24` bytes); otherwise it hands the
whole packet to the transport in a single `libivc_send` call. -/
theorem send_packet_emission_policy (env : send_env) (type : Nat)
    (data : List Nat) (avail : Nat) (hq : env.space_query = some avail) :
    (env.isOpen = false → __send_packet env type data = (-2, [])) ∧
    (env.isOpen = true → env.alloc_ok = true → avail < data.length + 24 →
      __send_packet env type data = (-12, [])) ∧
    (env.isOpen = true → env.alloc_ok = true → data.length + 24 ≤ avail →
      __send_packet env type data =
        (env.send_rc, [send_packet_bytes type data])) := by
  refine ⟨?_, ?_, ?_⟩
  · intro h
    simp [__send_packet, h]
  · intro h1 h2 h3
    simp [__send_packet, h1, h2, hq, send_packet_bytes_length, h3]
  · intro h1 h2 h3
    simp [__send_packet, h1, h2, hq, send_packet_bytes_length]
    omega

/-- Witness for `send_packet_emission_policy` at concrete channel states:
a closed channel yields `-ENOENT` with no emission, and an open channel with
only 10 bytes of space yields `-ENOMEM` with no emission for a 27-byte
packet. -/
theorem send_packet_emission_policy_witness :
    __send_packet (send_env.mk false true (some 100) 0 0) 4 [1, 2, 3] =
        (-2, []) ∧
    __send_packet (send_env.mk true true (some 10) 0 0) 4 [1, 2, 3] =
        (-12, []) :=
  ⟨(send_packet_emission_policy (send_env.mk false true (some 100) 0 0)
      4 [1, 2, 3] 100 rfl).1 rfl,
   (send_packet_emission_policy (send_env.mk true true (some 10) 0 0)
      4 [1, 2, 3] 10 rfl).2.1 rfl rfl (by norm_num)⟩

/-- C10: `consumer_add_display` and `consumer_remove_display` return 0 for
every channel state, even one on which `__send_packet` fails; the send
failure is only logged and cannot be observed in the return value. -/
theorem consumer_add_remove_display_return_zero (env : send_env)
    (key event_port framebuffer_port dirty_rectangles_port
      cursor_bitmap_port : Nat) :
    (consumer_add_display env key event_port framebuffer_port
        dirty_rectangles_port cursor_bitmap_port).1 = 0 ∧
    (consumer_remove_display env key).1 = 0 := by
  exact ⟨rfl, rfl⟩

/-! ## Streaming packet receipt

`__handle_control_channel_event` (`pv_display_helper.c:337`) loops:
while progress is made, it reads a 16-byte header when
`current_packet_header.length == 0` (`__try_to_read_header`), and when a
header with nonzero length is in progress it reads `length + 8` bytes,
validates the CRC and dispatches (`__try_to_receive_control_packet`).
The loop below is embedded with explicit fuel; every iteration that
continues consumes at least 8 bytes of the stream, so fuel
`s.length + 1` can never be exhausted (`run_channel_event_fuel_eq`).
The model assumes the transport data queries, exact-length reads and
receive-buffer allocations succeed. -/

/-- One bit flipped in one byte of a byte stream. -/
def flipBit (s : List Nat) (i k : Nat) : List Nat :=
  s.set i (s.getD i 0 ^^^ 2 ^ k)

/-- The receive loop with explicit fuel. Returns the dispatched
`(type, payload)` pairs in order, whether the CRC-mismatch fatal path was
taken (`__trigger_fatal_error_on_provider`), the final
`current_packet_header`, and the unconsumed channel bytes. -/
def run_channel_event_fuel (fuel : Nat) (h : dh_header) (s : List Nat) :
    List (Nat × List Nat) × Bool × dh_header × List Nat :=
  match fuel with
  | 0 => ([], false, h, s)
  | fuel + 1 =>
    if h.length = 0 then
      -- __try_to_read_header: an exact 16-byte read of the header
      if s.length < 16 then ([], false, h, s)
      else run_channel_event_fuel fuel (parseHeader (s.take 16)) (s.drop 16)
    else
      -- __try_to_receive_control_packet
      if s.length < h.length + 8 then ([], false, h, s)
      else
        let body := s.take (h.length + 8)
        let payload := body.take h.length
        if dh_crc16 (headerBytes h ++ payload) = rd16 (body.drop h.length) then
          let r := run_channel_event_fuel fuel { h with length := 0 }
            (s.drop (h.length + 8))
          ((h.type, payload) :: r.1, r.2)
        else ([], true, { h with length := 0 }, s.drop (h.length + 8))

/-- The receive loop on the bytes available on the channel. -/
def run_channel_event (h : dh_header) (s : List Nat) :
    List (Nat × List Nat) × Bool × dh_header × List Nat :=
  run_channel_event_fuel (s.length + 1) h s

/-- One unfolding step of the fueled loop. -/
lemma run_fuel_succ (fuel : Nat) (h : dh_header) (s : List Nat) :
    run_channel_event_fuel (fuel + 1) h s =
      if h.length = 0 then
        if s.length < 16 then ([], false, h, s)
        else run_channel_event_fuel fuel (parseHeader (s.take 16)) (s.drop 16)
      else
        if s.length < h.length + 8 then ([], false, h, s)
        else
          let body := s.take (h.length + 8)
          let payload := body.take h.length
          if dh_crc16 (headerBytes h ++ payload) = rd16 (body.drop h.length)
          then
            let r := run_channel_event_fuel fuel { h with length := 0 }
              (s.drop (h.length + 8))
            ((h.type, payload) :: r.1, r.2)
          else ([], true, { h with length := 0 }, s.drop (h.length + 8)) :=
  rfl

/-- Any fuel above the stream length computes the same result: the loop
consumes at least 8 bytes per iteration. -/
lemma run_channel_event_fuel_eq :
    ∀ (f : Nat) {g : Nat} (h : dh_header) (s : List Nat),
      s.length < f → s.length < g →
      run_channel_event_fuel f h s = run_channel_event_fuel g h s := by
  intro f
  induction f with
  | zero => intro g h s hf hg; omega
  | succ f ih =>
      intro g h s hf hg
      match g, hg with
      | g + 1, hg =>
        rw [run_fuel_succ f h s, run_fuel_succ g h s]
        by_cases h0 : h.length = 0
        · simp only [h0, if_true]
          by_cases hs : s.length < 16
          · simp [hs]
          · simp only [hs, if_false]
            apply ih
            · simp only [List.length_drop]; omega
            · simp only [List.length_drop]; omega
        · simp only [h0, if_false]
          by_cases hs : s.length < h.length + 8
          · simp [hs]
          · simp only [hs, if_false]
            by_cases hcrc : dh_crc16 (headerBytes h ++ (s.take (h.length + 8)).take h.length) =
                rd16 ((s.take (h.length + 8)).drop h.length)
            · simp only [hcrc, if_true]
              rw [ih { h with length := 0 } (s.drop (h.length + 8))
                (by simp only [List.length_drop]; omega)
                (g := g) (by simp only [List.length_drop]; omega)]
            · simp [hcrc]

/-- Behaviour of the receive loop on a stream holding a 16-byte header
followed by exactly the announced body: a single CRC check decides between
dispatch and the fatal CRC-mismatch path, either way consuming the whole
stream and zeroing the in-progress header length. -/
lemma run_channel_event_complete (h0 : dh_header) (hh : h0.length = 0)
    (hb rest : List Nat) (hhb : hb.length = 16) (L : Nat)
    (hL : (parseHeader hb).length = L) (hL1 : 1 ≤ L)
    (hrest : rest.length = L + 8) :
    run_channel_event h0 (hb ++ rest) =
      if dh_crc16 (headerBytes (parseHeader hb) ++ rest.take L) =
          rd16 (rest.drop L)
      then ([((parseHeader hb).type, rest.take L)], false,
              { parseHeader hb with length := 0 }, [])
      else ([], true, { parseHeader hb with length := 0 }, []) := by
  have hs : (hb ++ rest).length = L + 24 := by
    simp [hhb, hrest]; omega
  have htake : (hb ++ rest).take 16 = hb := by
    rw [← hhb]; exact List.take_left _ _
  have hdrop : (hb ++ rest).drop 16 = rest := by
    rw [← hhb]; exact List.drop_left _ _
  have hrest_take : rest.take (L + 8) = rest :=
    List.take_of_length_le (le_of_eq hrest)
  have hrest_drop : rest.drop (L + 8) = [] :=
    List.drop_eq_nil_of_le (le_of_eq hrest)
  unfold run_channel_event
  rw [hs]
  rw [run_fuel_succ]
  simp only [hh, if_true]
  have hlen : ¬ (hb ++ rest).length < 16 := by omega
  simp only [hlen, if_false, htake, hdrop]
  have e2 : L + 24 = (L + 23) + 1 := rfl
  rw [e2, run_fuel_succ]
  simp only [hL]
  have hne : ¬ L = 0 := by omega
  simp only [hne, if_false]
  have hlen2 : ¬ rest.length < L + 8 := by omega
  simp only [hlen2, if_false, hrest_take, hrest_drop]
  by_cases hcrc : dh_crc16 (headerBytes (parseHeader hb) ++ rest.take L) =
      rd16 (rest.drop L)
  · simp only [hcrc, if_true]
    have e3 : L + 23 = (L + 22) + 1 := rfl
    rw [e3, run_fuel_succ]
    simp
  · simp only [hcrc, if_false]

/-! ### Byte-level helpers for the codec proofs -/

lemma getD_set_ne (l : List Nat) (i j v : Nat) (h : i ≠ j) :
    (l.set i v).getD j 0 = l.getD j 0 := by
  simp [List.getD_eq_getElem?_getD, List.getElem?_set_ne h]

lemma getD_lt_of_forall (s : List Nat) (hs : ∀ x ∈ s, x < 256) (j : Nat) :
    s.getD j 0 < 256 := by
  by_cases hj : j < s.length
  · apply hs
    rw [List.getD_eq_getElem?_getD, List.getElem?_eq_getElem hj]
    exact List.getElem_mem hj
  · rw [List.getD_eq_default s 0 (by omega)]
    omega

lemma headerBytes_forall_lt (h : dh_header) : ∀ x ∈ headerBytes h, x < 256 := by
  intro x hx
  simp [headerBytes, le16, le32] at hx
  rcases hx with rfl | rfl | rfl | rfl | rfl | rfl | rfl | rfl | rfl | rfl |
    rfl | rfl | rfl | rfl | rfl | rfl <;> omega

lemma set_forall_lt (s : List Nat) (hs : ∀ x ∈ s, x < 256) (i v : Nat)
    (hv : v < 256) : ∀ x ∈ s.set i v, x < 256 := by
  intro x hx
  rcases List.mem_or_eq_of_mem_set hx with hx | rfl
  · exact hs x hx
  · exact hv

lemma flip_byte_lt {b k : Nat} (hb : b < 256) (hk : k < 8) :
    b ^^^ 2 ^ k < 256 := by
  have h1 : b < 2 ^ 8 := by norm_num; omega
  have h2 : 2 ^ k < 2 ^ 8 := Nat.pow_lt_pow_right (by norm_num) hk
  have := Nat.xor_lt_two_pow h1 h2
  norm_num at this
  omega

/-- A single-bit flip anywhere in a buffer changes its CRC-16. -/
lemma dh_crc16_flipBit (s : List Nat) (i k : Nat) (hi : i < s.length)
    (hk : k < 8) :
    dh_crc16 (s.set i (s.getD i 0 ^^^ 2 ^ k)) ≠ dh_crc16 s := by
  have hset : s.set i (s.getD i 0 ^^^ 2 ^ k) =
      s.take i ++ (s.getD i 0 ^^^ 2 ^ k) :: s.drop (i + 1) := by
    rw [List.set_eq_take_append_cons_drop, if_pos hi]
  have hself : s = s.take i ++ s.getD i 0 :: s.drop (i + 1) := by
    conv_lhs => rw [← List.take_append_drop i s, List.drop_eq_getElem_cons hi]
    simp [List.getD_eq_getElem?_getD, List.getElem?_eq_getElem hi]
  rw [hset]
  conv_rhs => rw [hself]
  exact (dh_crc16_flip (s.take i) (s.drop (i + 1)) (s.getD i 0) k hk).symm

/-- The encoded packet, decomposed into header, payload and footer. -/
lemma send_packet_bytes_decomp (t : Nat) (p : List Nat) :
    send_packet_bytes t p =
      headerBytes (dh_header.mk PV_DRIVER_MAGIC1 PV_DRIVER_MAGIC2 t p.length 0)
        ++ (p ++ footerBytes (dh_footer.mk (dh_crc16 (headerBytes
            (dh_header.mk PV_DRIVER_MAGIC1 PV_DRIVER_MAGIC2 t p.length 0)
              ++ p)) 0 0)) := by
  simp [send_packet_bytes, List.append_assoc]

lemma rd16_footerBytes (f : dh_footer) (h : f.crc < 65536) :
    rd16 (footerBytes f) = f.crc := by
  simp [footerBytes, le16, le32, rd16]
  omega

/-- The header `__send_packet` builds for `(type, payload)`. -/
def packetHeader (t : Nat) (p : List Nat) : dh_header :=
  { magic1 := PV_DRIVER_MAGIC1, magic2 := PV_DRIVER_MAGIC2,
    type := t, length := p.length, dh_reserved_word := 0 }

/-- The CRC `__send_packet` computes over header plus payload. -/
def packetCrc (t : Nat) (p : List Nat) : Nat :=
  dh_crc16 (headerBytes (packetHeader t p) ++ p)

/-- The footer `__send_packet` builds (reserved fields zeroed by
`pv_helper_malloc`). -/
def packetFooter (t : Nat) (p : List Nat) : dh_footer :=
  { crc := packetCrc t p, dh_reserved_halfword := 0, dh_reserved_word := 0 }

lemma send_packet_bytes_parts (t : Nat) (p : List Nat) :
    send_packet_bytes t p =
      headerBytes (packetHeader t p) ++ (p ++ footerBytes (packetFooter t p)) := by
  simp [send_packet_bytes, packetHeader, packetCrc, packetFooter,
    List.append_assoc]

lemma parse_packetHeader (t : Nat) (p : List Nat) (ht : t < 4294967296)
    (hL2 : p.length ≤ 4064) :
    parseHeader (headerBytes (packetHeader t p)) = packetHeader t p := by
  have h := parseHeader_headerBytes (packetHeader t p) []
    (by simp [packetHeader, PV_DRIVER_MAGIC1])
    (by simp [packetHeader, PV_DRIVER_MAGIC2])
    (by simpa [packetHeader] using ht)
    (by simp [packetHeader]; omega)
    (by simp [packetHeader])
  simpa using h

lemma packetCrc_lt (t : Nat) (p : List Nat) : packetCrc t p < 65536 :=
  dh_crc16_lt _

/-- Round trip: decoding the encoded packet of a nonempty payload dispatches
exactly the encoded `(type, payload)` pair and takes no error path. -/
lemma decode_send_packet (t : Nat) (p : List Nat) (ht : t < 4294967296)
    (hL1 : 1 ≤ p.length) (hL2 : p.length ≤ 4064)
    (h0 : dh_header) (hh : h0.length = 0) :
    run_channel_event h0 (send_packet_bytes t p) =
      ([(t, p)], false, { packetHeader t p with length := 0 }, []) := by
  rw [send_packet_bytes_parts]
  have hparse := parse_packetHeader t p ht hL2
  have hrestlen : (p ++ footerBytes (packetFooter t p)).length = p.length + 8 := by
    simp [footerBytes_length]
  have hcomp := run_channel_event_complete h0 hh
    (headerBytes (packetHeader t p)) (p ++ footerBytes (packetFooter t p))
    (headerBytes_length _) p.length
    (by rw [hparse]; rfl) hL1 hrestlen
  rw [hcomp, hparse]
  have htake : (p ++ footerBytes (packetFooter t p)).take p.length = p :=
    List.take_left _ _
  have hdrop : (p ++ footerBytes (packetFooter t p)).drop p.length =
      footerBytes (packetFooter t p) := List.drop_left _ _
  rw [htake, hdrop, rd16_footerBytes _ (packetCrc_lt t p)]
  have hc : dh_crc16 (headerBytes (packetHeader t p) ++ p) =
      (packetFooter t p).crc := rfl
  rw [if_pos hc]
  rfl

/-- A rejected stream: header plus exact body with a failing CRC check. -/
lemma run_channel_event_rejected (h0 : dh_header) (hh : h0.length = 0)
    (hb rest : List Nat) (hhb : hb.length = 16) (L : Nat)
    (hL : (parseHeader hb).length = L) (hL1 : 1 ≤ L)
    (hrest : rest.length = L + 8)
    (hcrc : dh_crc16 (headerBytes (parseHeader hb) ++ rest.take L) ≠
      rd16 (rest.drop L)) :
    run_channel_event h0 (hb ++ rest) =
      ([], true, { parseHeader hb with length := 0 }, []) := by
  rw [run_channel_event_complete h0 hh hb rest hhb L hL hL1 hrest,
    if_neg hcrc]

/-- Flipping a bit of a header byte outside the length field leaves the
parsed length intact but breaks the CRC, so the packet is rejected. -/
lemma flip_header_rejected (t : Nat) (p : List Nat) (i k : Nat)
    (ht : t < 4294967296) (hL1 : 1 ≤ p.length) (hL2 : p.length ≤ 4064)
    (h0 : dh_header) (hh : h0.length = 0) (hk : k < 8)
    (hi : i < 16) (hni : i < 8 ∨ 12 ≤ i) :
    run_channel_event h0 (flipBit (send_packet_bytes t p) i k) =
      ([], true,
        { parseHeader ((headerBytes (packetHeader t p)).set i
            ((headerBytes (packetHeader t p)).getD i 0 ^^^ 2 ^ k)) with
          length := 0 }, []) := by
  have hhb16 : (headerBytes (packetHeader t p)).length = 16 :=
    headerBytes_length _
  set hb := headerBytes (packetHeader t p) with hbdef
  set rest := p ++ footerBytes (packetFooter t p) with restdef
  have hflip : flipBit (send_packet_bytes t p) i k =
      hb.set i (hb.getD i 0 ^^^ 2 ^ k) ++ rest := by
    rw [send_packet_bytes_parts, ← hbdef, ← restdef]
    unfold flipBit
    rw [List.getD_append _ _ _ _ (by omega),
      List.set_append_left _ _ (by omega)]
  set hbFlip := hb.set i (hb.getD i 0 ^^^ 2 ^ k) with hbFlipdef
  have hbFliplen : hbFlip.length = 16 := by
    rw [hbFlipdef, List.length_set, hhb16]
  have hbbytes : ∀ x ∈ hb, x < 256 := headerBytes_forall_lt _
  have hbFlipbytes : ∀ x ∈ hbFlip, x < 256 :=
    set_forall_lt hb hbbytes i _
      (flip_byte_lt (getD_lt_of_forall hb hbbytes i) hk)
  have hparse := parse_packetHeader t p ht hL2
  have hplen : (parseHeader hbFlip).length = p.length := by
    have e8 : hbFlip.getD 8 0 = hb.getD 8 0 := getD_set_ne hb i 8 _ (by omega)
    have e9 : hbFlip.getD 9 0 = hb.getD 9 0 := getD_set_ne hb i 9 _ (by omega)
    have e10 : hbFlip.getD 10 0 = hb.getD 10 0 := getD_set_ne hb i 10 _ (by omega)
    have e11 : hbFlip.getD 11 0 = hb.getD 11 0 := getD_set_ne hb i 11 _ (by omega)
    have hlen' : (parseHeader hbFlip).length = (parseHeader hb).length := by
      simp only [parseHeader, rd32, getD_drop, Nat.reduceAdd]
      rw [e8, e9, e10, e11]
    rw [hlen', hparse]
    rfl
  have hrestlen : rest.length = p.length + 8 := by
    simp [restdef, footerBytes_length]
  have htake : rest.take p.length = p := by
    rw [restdef]; exact List.take_left _ _
  have hdrop : rest.drop p.length = footerBytes (packetFooter t p) := by
    rw [restdef]; exact List.drop_left _ _
  have hser : headerBytes (parseHeader hbFlip) = hbFlip := by
    rw [headerBytes_parseHeader hbFlip (by omega)
      (fun j _ => getD_lt_of_forall hbFlip hbFlipbytes j)]
    exact List.take_of_length_le (by omega)
  have happ : hbFlip ++ p = (hb ++ p).set i ((hb ++ p).getD i 0 ^^^ 2 ^ k) := by
    rw [List.getD_append _ _ _ _ (by omega),
      List.set_append_left _ _ (by omega)]
  have hcrcne : dh_crc16 (headerBytes (parseHeader hbFlip) ++ rest.take p.length) ≠
      rd16 (rest.drop p.length) := by
    rw [hser, htake, hdrop, rd16_footerBytes _ (packetCrc_lt t p), happ]
    have := dh_crc16_flipBit (hb ++ p) i k (by simp [hhb16]; omega) hk
    exact this
  rw [hflip]
  exact run_channel_event_rejected h0 hh hbFlip rest hbFliplen p.length hplen hL1
    hrestlen hcrcne

/-- Flipping a bit of a payload byte breaks the CRC, so the packet is
rejected. -/
lemma flip_payload_rejected (t : Nat) (p : List Nat) (i k : Nat)
    (ht : t < 4294967296) (hL1 : 1 ≤ p.length) (hL2 : p.length ≤ 4064)
    (h0 : dh_header) (hh : h0.length = 0) (hk : k < 8)
    (hi : 16 ≤ i) (hi2 : i < 16 + p.length) :
    run_channel_event h0 (flipBit (send_packet_bytes t p) i k) =
      ([], true, { packetHeader t p with length := 0 }, []) := by
  have hhb16 : (headerBytes (packetHeader t p)).length = 16 :=
    headerBytes_length _
  set hb := headerBytes (packetHeader t p) with hbdef
  set pFlip := p.set (i - 16) (p.getD (i - 16) 0 ^^^ 2 ^ k) with pFlipdef
  have hflip : flipBit (send_packet_bytes t p) i k =
      hb ++ (pFlip ++ footerBytes (packetFooter t p)) := by
    rw [send_packet_bytes_parts, ← hbdef]
    unfold flipBit
    rw [List.getD_append_right _ _ _ _ (by omega), hhb16,
      List.set_append_right _ _ (by rw [hhb16]; omega), hhb16,
      List.getD_append _ _ _ _ (by omega),
      List.set_append_left _ _ (by omega), ← pFlipdef]
  have hpFliplen : pFlip.length = p.length := by
    rw [pFlipdef, List.length_set]
  have hparse := parse_packetHeader t p ht hL2
  have hplen : (parseHeader hb).length = p.length := by
    rw [hparse]; rfl
  have hrestlen : (pFlip ++ footerBytes (packetFooter t p)).length =
      p.length + 8 := by
    simp [footerBytes_length, hpFliplen]
  have htake : (pFlip ++ footerBytes (packetFooter t p)).take p.length = pFlip := by
    rw [← hpFliplen]; exact List.take_left _ _
  have hdrop : (pFlip ++ footerBytes (packetFooter t p)).drop p.length =
      footerBytes (packetFooter t p) := by
    rw [← hpFliplen]; exact List.drop_left _ _
  have happ : hb ++ pFlip = (hb ++ p).set i ((hb ++ p).getD i 0 ^^^ 2 ^ k) := by
    rw [List.getD_append_right _ _ _ _ (by omega), hhb16,
      List.set_append_right _ _ (by rw [hhb16]; omega), hhb16, ← pFlipdef]
  have hcrcne : dh_crc16 (headerBytes (parseHeader hb) ++
        (pFlip ++ footerBytes (packetFooter t p)).take p.length) ≠
      rd16 ((pFlip ++ footerBytes (packetFooter t p)).drop p.length) := by
    rw [hparse, htake, hdrop, rd16_footerBytes _ (packetCrc_lt t p), ← hbdef,
      happ]
    exact dh_crc16_flipBit (hb ++ p) i k (by simp [hhb16]; omega) hk
  rw [hflip]
  have := run_channel_event_rejected h0 hh hb
    (pFlip ++ footerBytes (packetFooter t p)) hhb16 p.length hplen hL1
    hrestlen hcrcne
  rw [this, hparse]

/-- Flipping a bit of one of the two footer CRC bytes changes the stored
CRC while the recomputed CRC is unchanged, so the packet is rejected. -/
lemma flip_footer_crc_rejected (t : Nat) (p : List Nat) (i k : Nat)
    (ht : t < 4294967296) (hL1 : 1 ≤ p.length) (hL2 : p.length ≤ 4064)
    (h0 : dh_header) (hh : h0.length = 0) (hk : k < 8)
    (hi : i = 16 + p.length ∨ i = 17 + p.length) :
    run_channel_event h0 (flipBit (send_packet_bytes t p) i k) =
      ([], true, { packetHeader t p with length := 0 }, []) := by
  have hhb16 : (headerBytes (packetHeader t p)).length = 16 :=
    headerBytes_length _
  set hb := headerBytes (packetHeader t p) with hbdef
  set f := footerBytes (packetFooter t p) with fdef
  have hflen : f.length = 8 := footerBytes_length _
  set j := i - 16 - p.length with jdef
  have hj : j = 0 ∨ j = 1 := by omega
  set fFlip := f.set j (f.getD j 0 ^^^ 2 ^ k) with fFlipdef
  have hflip : flipBit (send_packet_bytes t p) i k = hb ++ (p ++ fFlip) := by
    rw [send_packet_bytes_parts, ← hbdef, ← fdef]
    unfold flipBit
    rw [List.getD_append_right _ _ _ _ (by omega), hhb16,
      List.set_append_right _ _ (by rw [hhb16]; omega), hhb16,
      List.getD_append_right _ _ _ _ (by omega),
      List.set_append_right _ _ (by omega), ← jdef, ← fFlipdef]
  have hfFliplen : fFlip.length = 8 := by rw [fFlipdef, List.length_set, hflen]
  have hparse := parse_packetHeader t p ht hL2
  have hplen : (parseHeader hb).length = p.length := by
    rw [hparse]; rfl
  have hrestlen : (p ++ fFlip).length = p.length + 8 := by simp [hfFliplen]
  have htake : (p ++ fFlip).take p.length = p := List.take_left _ _
  have hdrop : (p ++ fFlip).drop p.length = fFlip := List.drop_left _ _
  have hstored : rd16 fFlip ≠ packetCrc t p := by
    have hc := packetCrc_lt t p
    have hpow : (0 : Nat) < 2 ^ k := Nat.two_pow_pos k
    rcases hj with hj0 | hj1
    · rw [fFlipdef, hj0, fdef]
      have hlow : packetCrc t p % 256 ^^^ 2 ^ k ≠ packetCrc t p % 256 :=
        xor_ne_self (by omega)
      simp [footerBytes, packetFooter, le16, le32, rd16, List.set]
      omega
    · rw [fFlipdef, hj1, fdef]
      have hhigh : packetCrc t p / 256 % 256 ^^^ 2 ^ k ≠
          packetCrc t p / 256 % 256 := xor_ne_self (by omega)
      simp [footerBytes, packetFooter, le16, le32, rd16, List.set]
      omega
  have hcrcne : dh_crc16 (headerBytes (parseHeader hb) ++
        (p ++ fFlip).take p.length) ≠ rd16 ((p ++ fFlip).drop p.length) := by
    rw [hparse, htake, hdrop, ← hbdef]
    intro h
    exact hstored (h.symm.trans rfl)
  rw [hflip]
  have := run_channel_event_rejected h0 hh hb (p ++ fFlip) hhb16 p.length hplen
    hL1 hrestlen hcrcne
  rw [this, hparse]

/-- C1 (amended): for every packet type below `2^32` and every byte payload
with `1 ≤ |payload| ≤ 4064`, encoding with `__send_packet` and running the
streaming decoder on the resulting bytes dispatches exactly that
`(type, payload)` pair with no error; and flipping any single bit of the
encoded bytes other than the header's length field (bytes 8–11) and the
footer's six reserved bytes — i.e. a bit of the magics, type or reserved
header fields, of the payload, or of the footer's two CRC bytes — makes the
recomputed CRC differ from the footer CRC, so the packet is rejected through
the fatal CRC-mismatch path with nothing dispatched. -/
theorem packet_codec_roundtrip_and_bitflip (t : Nat) (p : List Nat)
    (ht : t < 4294967296) (hL1 : 1 ≤ p.length) (hL2 : p.length ≤ 4064)
    (h0 : dh_header) (hh : h0.length = 0) :
    ((run_channel_event h0 (send_packet_bytes t p)).1 = [(t, p)] ∧
     (run_channel_event h0 (send_packet_bytes t p)).2.1 = false) ∧
    (∀ i k, k < 8 →
      ((i < 16 ∧ (i < 8 ∨ 12 ≤ i)) ∨ (16 ≤ i ∧ i < 16 + p.length) ∨
        i = 16 + p.length ∨ i = 17 + p.length) →
      (run_channel_event h0 (flipBit (send_packet_bytes t p) i k)).1 = [] ∧
      (run_channel_event h0 (flipBit (send_packet_bytes t p) i k)).2.1 =
        true) := by
  constructor
  · rw [decode_send_packet t p ht hL1 hL2 h0 hh]
    exact ⟨rfl, rfl⟩
  · intro i k hk hcase
    rcases hcase with ⟨hi, hni⟩ | ⟨hi, hi2⟩ | hi | hi
    · rw [flip_header_rejected t p i k ht hL1 hL2 h0 hh hk hi hni]
      exact ⟨rfl, rfl⟩
    · rw [flip_payload_rejected t p i k ht hL1 hL2 h0 hh hk hi hi2]
      exact ⟨rfl, rfl⟩
    · rw [flip_footer_crc_rejected t p i k ht hL1 hL2 h0 hh hk (Or.inl hi)]
      exact ⟨rfl, rfl⟩
    · rw [flip_footer_crc_rejected t p i k ht hL1 hL2 h0 hh hk (Or.inr hi)]
      exact ⟨rfl, rfl⟩

/-- C1 counterexample to the claim as stated: for the packet
`(type 1, payload [0])`, flipping bit 0 of byte 19 — a reserved footer
byte — leaves both the recomputed and the stored CRC unchanged, and the
decoder still dispatches `(1, [0])`: the corrupted packet is accepted, not
rejected.  Moreover the empty payload (allowed by the claim's
`|payload| ≤ 4064`) is never dispatched at all: its header announces
length 0, which the receive loop takes for "no packet in progress". -/
theorem packet_codec_claim_counterexample :
    ((run_channel_event (dh_header.mk 0 0 0 0 0)
        (flipBit (send_packet_bytes 1 [0]) 19 0)).1 = [(1, [0])] ∧
     (run_channel_event (dh_header.mk 0 0 0 0 0)
        (flipBit (send_packet_bytes 1 [0]) 19 0)).2.1 = false) ∧
    (run_channel_event (dh_header.mk 0 0 0 0 0)
        (send_packet_bytes 7 [])).1 = [] := by
  refine ⟨⟨?_, ?_⟩, ?_⟩ <;> rfl

/-- Witness for `packet_codec_roundtrip_and_bitflip`: the packet
`(1, [0])` round-trips, and flipping bit 0 of its payload byte (byte 16)
is rejected. -/
theorem packet_codec_roundtrip_and_bitflip_witness :
    (run_channel_event (dh_header.mk 0 0 0 0 0)
        (send_packet_bytes 1 [0])).1 = [(1, [0])] ∧
    (run_channel_event (dh_header.mk 0 0 0 0 0)
        (flipBit (send_packet_bytes 1 [0]) 16 0)).2.1 = true := by
  have h := packet_codec_roundtrip_and_bitflip 1 [0] (by norm_num)
    (by norm_num) (by norm_num) (dh_header.mk 0 0 0 0 0) rfl
  exact ⟨h.1.1, (h.2 16 0 (by norm_num) (by norm_num)).2⟩

/-! ## Per-call receive models

One call of each body-receiving function, over the in-progress
`current_packet_header` and the bytes available on the channel.  The
transport's exact-length `libivc_recv` succeeds whenever the availability
query reported enough data (the IVC contract), so the C branch for a failing
read after a successful query is not reachable in the model. -/

/-- The observable result of one receive call: the C return value, the
`current_packet_header` afterwards, the remaining channel bytes, whether the
receive buffer was freed, whether the fatal-error trigger ran, and the
`(header, payload)` handed to the packet-receipt handler (the header is the
contents of `current_packet_header` at dispatch time). -/
structure recv_outcome where
  retval : Bool
  header : dh_header
  remaining : List Nat
  buffer_freed : Bool
  fatal : Bool
  dispatched : Option (dh_header × List Nat)
deriving DecidableEq, Repr

/-- `__try_to_receive_control_packet` on the provider control channel
(`pv_display_helper.c:228`): on a failed availability query it raises the
provider's fatal error; on a CRC mismatch it zeroes
`current_packet_header.length`, frees the buffer and raises the fatal
error; on success it zeroes the length and then dispatches
`&provider->current_packet_header` (whose length is now 0) with the
payload. -/
def __try_to_receive_control_packet (h : dh_header) (data : List Nat)
    (query_ok alloc_ok : Bool) : recv_outcome :=
  let need := h.length + 8
  if ¬query_ok then
    ⟨false, h, data, false, true, none⟩
  else if data.length < need then
    ⟨false, h, data, false, false, none⟩
  else if ¬alloc_ok then
    ⟨false, h, data, false, false, none⟩
  else
    let buffer := data.take need
    let payload := buffer.take h.length
    if dh_crc16 (headerBytes h ++ payload) = rd16 (buffer.drop h.length) then
      ⟨true, { h with length := 0 }, data.drop need, true, false,
        some ({ h with length := 0 }, payload)⟩
    else
      ⟨false, { h with length := 0 }, data.drop need, true, true, none⟩

/-- `__try_to_receive_control_packet` on the consumer control channel
(`pv_display_backend_helper.c:170`): identical to the provider version, with
the consumer's fatal-error trigger. -/
def __try_to_receive_control_packet_consumer (h : dh_header)
    (data : List Nat) (query_ok alloc_ok : Bool) : recv_outcome :=
  let need := h.length + 8
  if ¬query_ok then
    ⟨false, h, data, false, true, none⟩
  else if data.length < need then
    ⟨false, h, data, false, false, none⟩
  else if ¬alloc_ok then
    ⟨false, h, data, false, false, none⟩
  else
    let buffer := data.take need
    let payload := buffer.take h.length
    if dh_crc16 (headerBytes h ++ payload) = rd16 (buffer.drop h.length) then
      ⟨true, { h with length := 0 }, data.drop need, true, false,
        some ({ h with length := 0 }, payload)⟩
    else
      ⟨false, { h with length := 0 }, data.drop need, true, true, none⟩

/-- `__try_to_receive_event_packet` on the consumer per-display event
channel (`pv_display_backend_helper.c:515`): the same structure, but neither
a failed availability query nor a CRC mismatch triggers any fatal error —
the function merely logs, zeroes the length, frees the buffer and returns
false. -/
def __try_to_receive_event_packet (h : dh_header) (data : List Nat)
    (query_ok alloc_ok : Bool) : recv_outcome :=
  let need := h.length + 8
  if ¬query_ok then
    ⟨false, h, data, false, false, none⟩
  else if data.length < need then
    ⟨false, h, data, false, false, none⟩
  else if ¬alloc_ok then
    ⟨false, h, data, false, false, none⟩
  else
    let buffer := data.take need
    let payload := buffer.take h.length
    if dh_crc16 (headerBytes h ++ payload) = rd16 (buffer.drop h.length) then
      ⟨true, { h with length := 0 }, data.drop need, true, false,
        some ({ h with length := 0 }, payload)⟩
    else
      ⟨false, { h with length := 0 }, data.drop need, true, false, none⟩

/-- C4 (amended): on a CRC mismatch, all three receivers zero the
in-progress header length and free the receive buffer; the provider and
consumer control channels additionally raise the fatal channel error, but
the consumer per-display event channel does not — it only logs and returns
false. -/
theorem crc_mismatch_handling (h : dh_header) (data : List Nat)
    (hneed : h.length + 8 ≤ data.length)
    (hcrc : dh_crc16 (headerBytes h ++
        (data.take (h.length + 8)).take h.length) ≠
      rd16 ((data.take (h.length + 8)).drop h.length)) :
    __try_to_receive_control_packet h data true true =
      ⟨false, { h with length := 0 }, data.drop (h.length + 8),
        true, true, none⟩ ∧
    __try_to_receive_control_packet_consumer h data true true =
      ⟨false, { h with length := 0 }, data.drop (h.length + 8),
        true, true, none⟩ ∧
    __try_to_receive_event_packet h data true true =
      ⟨false, { h with length := 0 }, data.drop (h.length + 8),
        true, false, none⟩ := by
  refine ⟨?_, ?_, ?_⟩ <;>
    simp [__try_to_receive_control_packet,
      __try_to_receive_control_packet_consumer,
      __try_to_receive_event_packet, hcrc, Nat.not_lt.mpr hneed]

/-- Witness for `crc_mismatch_handling`: a type-101 header announcing one
payload byte over nine zero bytes fails the CRC check. -/
theorem crc_mismatch_handling_witness :
    __try_to_receive_event_packet (dh_header.mk 0xC0DE 0x5AFE 101 1 0)
        [0, 0, 0, 0, 0, 0, 0, 0, 0] true true =
      ⟨false, dh_header.mk 0xC0DE 0x5AFE 101 0 0, [], true, false, none⟩ :=
  (crc_mismatch_handling (dh_header.mk 0xC0DE 0x5AFE 101 1 0)
    [0, 0, 0, 0, 0, 0, 0, 0, 0] (by norm_num) (by decide)).2.2

/-- C4 counterexample to the claim as stated: on the consumer per-display
event channel a CRC mismatch does not raise the fatal channel error — the
outcome's fatal flag is false (while the length is zeroed and the buffer
freed). -/
theorem crc_mismatch_event_channel_no_fatal :
    (__try_to_receive_event_packet (dh_header.mk 0xC0DE 0x5AFE 101 1 0)
        [0, 0, 0, 0, 0, 0, 0, 0, 0] true true).fatal = false ∧
    (__try_to_receive_event_packet (dh_header.mk 0xC0DE 0x5AFE 101 1 0)
        [0, 0, 0, 0, 0, 0, 0, 0, 0] true true).buffer_freed = true ∧
    (__try_to_receive_event_packet (dh_header.mk 0xC0DE 0x5AFE 101 1 0)
        [0, 0, 0, 0, 0, 0, 0, 0, 0] true true).header.length = 0 := by
  refine ⟨?_, ?_, ?_⟩ <;> rfl

/-- C9: on both control channels, when the CRC validates, the receiver
resets `current_packet_header.length` to 0 before dispatch and passes that
same header to the packet-type handler: the dispatched header has length 0
and still carries the received packet's type. -/
theorem crc_valid_dispatch_header_zeroed (h : dh_header) (data : List Nat)
    (hneed : h.length + 8 ≤ data.length)
    (hcrc : dh_crc16 (headerBytes h ++
        (data.take (h.length + 8)).take h.length) =
      rd16 ((data.take (h.length + 8)).drop h.length)) :
    (__try_to_receive_control_packet h data true true).dispatched =
      some ({ h with length := 0 },
        (data.take (h.length + 8)).take h.length) ∧
    (__try_to_receive_control_packet_consumer h data true true).dispatched =
      some ({ h with length := 0 },
        (data.take (h.length + 8)).take h.length) ∧
    ({ h with length := 0 } : dh_header).length = 0 ∧
    ({ h with length := 0 } : dh_header).type = h.type := by
  refine ⟨?_, ?_, rfl, rfl⟩ <;>
    simp [__try_to_receive_control_packet,
      __try_to_receive_control_packet_consumer, hcrc, Nat.not_lt.mpr hneed]

/-- Witness for `crc_valid_dispatch_header_zeroed`: the body of the encoded
packet `(2, [5])` validates, and the dispatched header has length 0. -/
theorem crc_valid_dispatch_header_zeroed_witness :
    (__try_to_receive_control_packet (packetHeader 2 [5])
        ([5] ++ footerBytes (packetFooter 2 [5])) true true).dispatched =
      some ({ packetHeader 2 [5] with length := 0 }, [5]) :=
  (crc_valid_dispatch_header_zeroed (packetHeader 2 [5])
    ([5] ++ footerBytes (packetFooter 2 [5])) (by norm_num [packetHeader,
      footerBytes_length]) (by decide)).1

/-! ## Provider capability advertisement (`pv_display_helper.c`) -/

/-- The provider-state fields involved in capability bookkeeping: the
capability bitmap and the registered control-packet handlers (handlers are
opaque identifiers; `none` is a NULL pointer). -/
structure pv_display_provider_state where
  capabilities : Nat
  host_display_change_handler : Option Nat
  add_display_handler : Option Nat
  remove_display_handler : Option Nat
deriving DecidableEq, Repr

/-- `provider_register_host_display_change_handler`
(`pv_display_helper.c:1695`): stores the handler and ORs `DH_CAP_RESIZE`
into the capability bitmap. -/
def provider_register_host_display_change_handler
    (p : pv_display_provider_state) (handler : Option Nat) :
    pv_display_provider_state :=
  { p with host_display_change_handler := handler,
           capabilities := p.capabilities ||| DH_CAP_RESIZE }

/-- `provider_register_add_display_request_handler`
(`pv_display_helper.c:1717`): stores the handler and ORs `DH_CAP_HOTPLUG`. -/
def provider_register_add_display_request_handler
    (p : pv_display_provider_state) (handler : Option Nat) :
    pv_display_provider_state :=
  { p with add_display_handler := handler,
           capabilities := p.capabilities ||| DH_CAP_HOTPLUG }

/-- `provider_register_remove_display_request_handler`
(`pv_display_helper.c:1738`): stores the handler and ORs `DH_CAP_HOTPLUG`. -/
def provider_register_remove_display_request_handler
    (p : pv_display_provider_state) (handler : Option Nat) :
    pv_display_provider_state :=
  { p with remove_display_handler := handler,
           capabilities := p.capabilities ||| DH_CAP_HOTPLUG }

/-- The `struct dh_driver_capabilities` payload built by
`provider_advertise_capabilities` (`pv_display_helper.c:1543`): the
designated initializer sets only `.max_displays` and
`.version = PV_DRIVER_INTERFACE_VERSION`; `.flags` and the reserved word
stay zero. -/
def dh_driver_capabilities_payload (max_displays : Nat) : List Nat :=
  le32 max_displays ++ le32 PV_DRIVER_INTERFACE_VERSION ++ le32 0 ++ le32 0

/-- `provider_advertise_capabilities` (`pv_display_helper.c:1536`): sends
the capabilities payload over the control channel; the provider's
`capabilities` field is not read. -/
def provider_advertise_capabilities (p : pv_display_provider_state)
    (env : send_env) (max_displays : Nat) : Int × List (List Nat) :=
  __send_packet env PACKET_TYPE_CONTROL_DRIVER_CAPABILITIES
    (dh_driver_capabilities_payload max_displays)

/-- C2 (amended): the driver-capabilities packet's version field is
`0x00000001` and its flags field is always 0 — the packet is built without
reading the provider's capability bitmap (the interface header documents
`flags` as unused); the bitmap itself is OR'd on handler registration:
`DH_CAP_RESIZE` for the host-display-change handler, `DH_CAP_HOTPLUG` for
the add- and remove-display handlers. -/
theorem advertise_capabilities_version_and_flags
    (p : pv_display_provider_state) (env : send_env) (max_displays : Nat)
    (handler : Option Nat) :
    rd32 ((dh_driver_capabilities_payload max_displays).drop 4) =
      PV_DRIVER_INTERFACE_VERSION ∧
    rd32 ((dh_driver_capabilities_payload max_displays).drop 8) = 0 ∧
    provider_advertise_capabilities p env max_displays =
      __send_packet env PACKET_TYPE_CONTROL_DRIVER_CAPABILITIES
        (dh_driver_capabilities_payload max_displays) ∧
    (provider_register_host_display_change_handler p handler).capabilities =
      p.capabilities ||| DH_CAP_RESIZE ∧
    (provider_register_host_display_change_handler p
        handler).host_display_change_handler = handler ∧
    (provider_register_add_display_request_handler p handler).capabilities =
      p.capabilities ||| DH_CAP_HOTPLUG ∧
    (provider_register_remove_display_request_handler p
        handler).capabilities = p.capabilities ||| DH_CAP_HOTPLUG :=
  ⟨rfl, rfl, rfl, rfl, rfl, rfl, rfl⟩

/-- C2 counterexample to the claim as stated: a provider that has registered
a host-display-change handler has capability bitmap `DH_CAP_RESIZE = 4`,
yet the packet `advertise_capabilities` emits carries flags 0 (bytes 8–11 of
the payload), not the bitmap. -/
theorem advertise_capabilities_flags_counterexample :
    (provider_register_host_display_change_handler
        (pv_display_provider_state.mk 0 none none none)
        (some 1)).capabilities = 4 ∧
    (provider_advertise_capabilities
        (provider_register_host_display_change_handler
          (pv_display_provider_state.mk 0 none none none) (some 1))
        (send_env.mk true true (some 1000) 0 0) 2).2 =
      [send_packet_bytes PACKET_TYPE_CONTROL_DRIVER_CAPABILITIES
        (dh_driver_capabilities_payload 2)] ∧
    rd32 ((dh_driver_capabilities_payload 2).drop 8) = 0 ∧ (0 : Nat) ≠ 4 :=
  ⟨rfl, rfl, rfl, by norm_num⟩

/-! ## Dirty-rectangle policy (`pv_display_invalidate_region`) -/

/-- The raw 16-byte record written on the dirty-rectangles channel
(`struct dh_dirty_rectangle`: four packed `u32`, no header or footer). -/
def dh_dirty_rectangle_bytes (x y width height : Nat) : List Nat :=
  le32 x ++ le32 y ++ le32 width ++ le32 height

/-- `pv_display_invalidate_region` (`pv_display_helper.c:529`), on a display
with a dirty-rectangles connection: returns the C return code, the bytes
written to the channel, and whether the fatal-error trigger ran.  The space
query result is `some available` on success, `none` (with return `query_rc`
and a fatal trigger) on failure. -/
def pv_display_invalidate_region (width height : Nat)
    (space_query : Option Nat) (query_rc send_rc : Int)
    (x y w h : Nat) : Int × List Nat × Bool :=
  match space_query with
  | none => (query_rc, [], true)
  | some available_space =>
      if available_space < 16 then (-11, [], false)       -- -EAGAIN
      else if available_space < 32 then
        (send_rc, dh_dirty_rectangle_bytes 0 0 width height, false)
      else
        (send_rc, dh_dirty_rectangle_bytes x y w h, false)

/-- C3: with less than 16 bytes of space the call writes nothing and
returns `-EAGAIN`; with 16–31 bytes it writes exactly the 16-byte record
`(0, 0, display.width, display.height)` instead of the caller's rectangle;
otherwise it writes exactly the caller's 16-byte record — raw, with no
header or footer. -/
theorem invalidate_region_policy (width height x y w h : Nat)
    (avail : Nat) (qrc src : Int) :
    (avail < 16 →
      pv_display_invalidate_region width height (some avail) qrc src x y w h =
        (-11, [], false)) ∧
    (16 ≤ avail → avail < 32 →
      pv_display_invalidate_region width height (some avail) qrc src x y w h =
        (src, dh_dirty_rectangle_bytes 0 0 width height, false) ∧
      (dh_dirty_rectangle_bytes 0 0 width height).length = 16) ∧
    (32 ≤ avail →
      pv_display_invalidate_region width height (some avail) qrc src x y w h =
        (src, dh_dirty_rectangle_bytes x y w h, false) ∧
      (dh_dirty_rectangle_bytes x y w h).length = 16) := by
  refine ⟨?_, ?_, ?_⟩
  · intro h1
    simp [pv_display_invalidate_region, h1]
  · intro h1 h2
    have h3 : ¬ avail < 16 := by omega
    refine ⟨?_, by simp [dh_dirty_rectangle_bytes, le32]⟩
    simp [pv_display_invalidate_region, h3, h2]
  · intro h1
    have h2 : ¬ avail < 16 := by omega
    have h3 : ¬ avail < 32 := by omega
    refine ⟨?_, by simp [dh_dirty_rectangle_bytes, le32]⟩
    simp [pv_display_invalidate_region, h2, h3]

/-- Witness for `invalidate_region_policy`: scenario E4 of the spec —
20 bytes free, display 1920×1080, caller rectangle (10, 10, 5, 5); the
16 bytes written are the record `(0, 0, 1920, 1080)`. -/
theorem invalidate_region_policy_witness :
    pv_display_invalidate_region 1920 1080 (some 20) 0 0 10 10 5 5 =
      (0, dh_dirty_rectangle_bytes 0 0 1920 1080, false) ∧
    pv_display_invalidate_region 1920 1080 (some 10) 0 0 10 10 5 5 =
      (-11, [], false) :=
  ⟨((invalidate_region_policy 1920 1080 10 10 5 5 20 0 0).2.1
      (by norm_num) (by norm_num)).1,
   (invalidate_region_policy 1920 1080 10 10 5 5 10 0 0).1 (by norm_num)⟩

/-! ## Fatal-error delivery (`__handle_disconnect_for_connection`,
`__trigger_fatal_error_on_display_backend`) -/

/-- One completed top-level call of `__handle_disconnect_for_connection`
(`pv_display_helper.c:1045`) for a display with a registered fatal-error
handler.  The state is `(handler_in_progress, calls)`: the function's
`static bool` guard — a single flag shared by every display — and the
number of times this display's fatal-error handler has run.  If the guard
is set (a nested call from within a handler) nothing happens; otherwise the
guard is set, `__trigger_fatal_error_on_display` runs the handler, and the
guard is cleared again before returning. -/
def __handle_disconnect_for_connection (st : Bool × Nat) : Bool × Nat :=
  if st.1 then st
  else (false, st.2 + 1)

/-- A sequence of `n` completed top-level disconnect events on the
provider-side display's channels. -/
def provider_disconnect_events : Nat → (Bool × Nat) → (Bool × Nat)
  | 0, st => st
  | n + 1, st =>
      provider_disconnect_events n (__handle_disconnect_for_connection st)

/-- `__trigger_fatal_error_on_display_backend`
(`pv_display_backend_helper.c:30`): under `fatal_lock`, if a fatal-error
handler is registered it is nulled first and then invoked; the state is
`(fatal_error_handler, calls)`. -/
def __trigger_fatal_error_on_display_backend (st : Option Nat × Nat) :
    Option Nat × Nat :=
  match st.1 with
  | some _ => (none, st.2 + 1)
  | none => st

/-- A sequence of `n` fatal-error triggers on a consumer-side display
backend (one per channel disconnect, CRC failure, ...). -/
def backend_fatal_triggers : Nat → (Option Nat × Nat) → (Option Nat × Nat)
  | 0, st => st
  | n + 1, st =>
      backend_fatal_triggers n (__trigger_fatal_error_on_display_backend st)

lemma backend_fatal_triggers_le :
    ∀ (n : Nat) (h : Option Nat) (c : Nat),
      (backend_fatal_triggers n (h, c)).2 ≤
        c + (match h with | some _ => 1 | none => 0) := by
  intro n
  induction n with
  | zero => intro h c; cases h <;> simp [backend_fatal_triggers]
  | succ n ih =>
      intro h c
      cases h with
      | none =>
          simpa [backend_fatal_triggers,
            __trigger_fatal_error_on_display_backend] using ih none c
      | some f =>
          have := ih none (c + 1)
          simpa [backend_fatal_triggers,
            __trigger_fatal_error_on_display_backend] using this

lemma provider_disconnect_events_count :
    ∀ (n c : Nat), (provider_disconnect_events n (false, c)).2 = c + n := by
  intro n
  induction n with
  | zero => intro c; simp [provider_disconnect_events]
  | succ n ih =>
      intro c
      have := ih (c + 1)
      simp [provider_disconnect_events, __handle_disconnect_for_connection]
      omega

/-- C5 (amended): the consumer-side display backend latches its fatal-error
handler per object — the handler pointer is nulled before the first
invocation, so any chain of faults invokes it at most once.  The
provider-side display has no such latch: its guard is a `static bool`
shared by all displays and cleared when each handler returns, so it only
suppresses nested invocations; a chain of `n` completed faults on one
display invokes its handler `n` times. -/
theorem fatal_error_latch (n : Nat) (handler : Option Nat) :
    (backend_fatal_triggers n (handler, 0)).2 ≤ 1 ∧
    (provider_disconnect_events n (false, 0)).2 = n := by
  constructor
  · have := backend_fatal_triggers_le n handler 0
    cases handler <;> simp at this <;> omega
  · simpa using provider_disconnect_events_count n 0

/-- C5 counterexample to the claim as stated: two successive channel
disconnects on one provider-side display invoke its fatal-error handler
twice — more than the claimed "at most one time". -/
theorem provider_fatal_error_not_latched :
    (provider_disconnect_events 2 (false, 0)).2 = 2 ∧ ¬ (2 : Nat) ≤ 1 :=
  ⟨rfl, by norm_num⟩

/-! ## Handler registration and dispatch on the display backend
(`pv_display_backend_helper.c`) -/

/-- The registered per-event handlers of a `pv_display_backend` (opaque
identifiers; `none` is a NULL pointer). -/
structure pv_display_backend_handlers where
  set_display_handler : Option Nat
  update_cursor_handler : Option Nat
  move_cursor_handler : Option Nat
  blank_display_handler : Option Nat
  dirty_rectangle_handler : Option Nat
deriving DecidableEq, Repr

/-- `display_register_set_display_handler`
(`pv_display_backend_helper.c:922`). -/
def display_register_set_display_handler
    (d : pv_display_backend_handlers) (handler : Option Nat) :
    pv_display_backend_handlers :=
  { d with set_display_handler := handler }

/-- `display_register_dirty_rectangle_handler`
(`pv_display_backend_helper.c:891`). -/
def display_register_dirty_rectangle_handler
    (d : pv_display_backend_handlers) (handler : Option Nat) :
    pv_display_backend_handlers :=
  { d with dirty_rectangle_handler := handler }

/-- `__handle_set_display_request` (`pv_display_backend_helper.c:428`):
with no registered handler the event is logged and dropped; otherwise the
handler is called with width, height, stride.  The result lists the calls
made. -/
def __handle_set_display_request (handler : Option Nat)
    (width height stride : Nat) : List (Nat × Nat × Nat × Nat) :=
  match handler with
  | none => []
  | some f => [(f, width, height, stride)]

/-- `__handle_update_cursor_request` (`pv_display_backend_helper.c:440`):
null handler drops the event. -/
def __handle_update_cursor_request (handler : Option Nat)
    (xhot yhot show_cursor : Nat) : List (Nat × Nat × Nat × Nat) :=
  match handler with
  | none => []
  | some f => [(f, xhot, yhot, show_cursor)]

/-- `__handle_move_cursor_request` (`pv_display_backend_helper.c:450`):
null handler drops the event. -/
def __handle_move_cursor_request (handler : Option Nat) (x y : Nat) :
    List (Nat × Nat × Nat) :=
  match handler with
  | none => []
  | some f => [(f, x, y)]

/-- `__handle_blank_display_request` (`pv_display_backend_helper.c:460`):
null handler drops the event. -/
def __handle_blank_display_request (handler : Option Nat) (reason : Nat) :
    List (Nat × Nat) :=
  match handler with
  | none => []
  | some f => [(f, reason)]

/-- `__handle_dirty_rectangle_event` (`pv_display_backend_helper.c:734`):
while at least 16 bytes are available, the channel is open and the
dirty-rectangles connection is present, read one 16-byte record and call
`display->dirty_rectangle_handler` — with no null check.  Each emitted
entry records the pointer called (possibly `none`, a NULL call) and the
record's four fields. -/
def __handle_dirty_rectangle_event (handler : Option Nat)
    (is_open connected : Bool) :
    List Nat → List (Option Nat × Nat × Nat × Nat × Nat)
  | b0 :: b1 :: b2 :: b3 :: b4 :: b5 :: b6 :: b7 :: b8 :: b9 :: b10 ::
      b11 :: b12 :: b13 :: b14 :: b15 :: rest =>
      if is_open && connected then
        (handler,
          b0 + 256 * b1 + 65536 * b2 + 16777216 * b3,
          b4 + 256 * b5 + 65536 * b6 + 16777216 * b7,
          b8 + 256 * b9 + 65536 * b10 + 16777216 * b11,
          b12 + 256 * b13 + 65536 * b14 + 16777216 * b15) ::
          __handle_dirty_rectangle_event handler is_open connected rest
      else []
  | _ => []

/-- Every call emitted by the dirty-rectangle dispatch loop goes through
the registered handler pointer. -/
lemma dirty_rectangle_calls_tagged (f : Nat) :
    ∀ (rest : List Nat) (call : Option Nat × Nat × Nat × Nat × Nat),
      call ∈ __handle_dirty_rectangle_event (some f) true true rest →
      call.1 = some f
  | b0 :: b1 :: b2 :: b3 :: b4 :: b5 :: b6 :: b7 :: b8 :: b9 :: b10 :: b11 :: b12 :: b13 :: b14 :: b15 :: rest', call, hcall => by
      simp only [__handle_dirty_rectangle_event, Bool.and_self, if_true,
        List.mem_cons] at hcall
      rcases hcall with rfl | hcall
      · rfl
      · exact dirty_rectangle_calls_tagged f rest' call hcall
  | [], _, hcall => by
      simp [__handle_dirty_rectangle_event] at hcall
  | [b0], _, hcall => by
      simp [__handle_dirty_rectangle_event] at hcall
  | [b0, b1], _, hcall => by
      simp [__handle_dirty_rectangle_event] at hcall
  | [b0, b1, b2], _, hcall => by
      simp [__handle_dirty_rectangle_event] at hcall
  | [b0, b1, b2, b3], _, hcall => by
      simp [__handle_dirty_rectangle_event] at hcall
  | [b0, b1, b2, b3, b4], _, hcall => by
      simp [__handle_dirty_rectangle_event] at hcall
  | [b0, b1, b2, b3, b4, b5], _, hcall => by
      simp [__handle_dirty_rectangle_event] at hcall
  | [b0, b1, b2, b3, b4, b5, b6], _, hcall => by
      simp [__handle_dirty_rectangle_event] at hcall
  | [b0, b1, b2, b3, b4, b5, b6, b7], _, hcall => by
      simp [__handle_dirty_rectangle_event] at hcall
  | [b0, b1, b2, b3, b4, b5, b6, b7, b8], _, hcall => by
      simp [__handle_dirty_rectangle_event] at hcall
  | [b0, b1, b2, b3, b4, b5, b6, b7, b8, b9], _, hcall => by
      simp [__handle_dirty_rectangle_event] at hcall
  | [b0, b1, b2, b3, b4, b5, b6, b7, b8, b9, b10], _, hcall => by
      simp [__handle_dirty_rectangle_event] at hcall
  | [b0, b1, b2, b3, b4, b5, b6, b7, b8, b9, b10, b11], _, hcall => by
      simp [__handle_dirty_rectangle_event] at hcall
  | [b0, b1, b2, b3, b4, b5, b6, b7, b8, b9, b10, b11, b12], _, hcall => by
      simp [__handle_dirty_rectangle_event] at hcall
  | [b0, b1, b2, b3, b4, b5, b6, b7, b8, b9, b10, b11, b12, b13], _, hcall => by
      simp [__handle_dirty_rectangle_event] at hcall
  | [b0, b1, b2, b3, b4, b5, b6, b7, b8, b9, b10, b11, b12, b13, b14], _, hcall => by
      simp [__handle_dirty_rectangle_event] at hcall

/-- C6 (amended): registering a handler replaces the previously registered
one; a null handler silently drops subsequent set-display, update-cursor,
move-cursor and blank-display events; but the dirty-rectangle dispatch
calls the registered pointer for every 16-byte record without a null
check, so a null dirty-rectangle handler is invoked (a NULL call), not
silently dropped. -/
theorem handler_registration_and_null_drop
    (d : pv_display_backend_handlers) (h1 h2 : Option Nat)
    (w h stride x y reason f : Nat) (rest : List Nat) :
    (display_register_set_display_handler
        (display_register_set_display_handler d h1) h2).set_display_handler =
      h2 ∧
    (display_register_dirty_rectangle_handler
        (display_register_dirty_rectangle_handler d h1)
        h2).dirty_rectangle_handler = h2 ∧
    __handle_set_display_request none w h stride = [] ∧
    __handle_update_cursor_request none x y 1 = [] ∧
    __handle_move_cursor_request none x y = [] ∧
    __handle_blank_display_request none reason = [] ∧
    __handle_set_display_request (some f) w h stride = [(f, w, h, stride)] ∧
    (∀ call ∈ __handle_dirty_rectangle_event (some f) true true rest,
      call.1 = some f) ∧
    (16 ≤ rest.length →
      __handle_dirty_rectangle_event none true true rest ≠ []) := by
  refine ⟨rfl, rfl, rfl, rfl, rfl, rfl, rfl, ?_, ?_⟩
  · intro call hcall
    exact dirty_rectangle_calls_tagged f rest call hcall
  · intro hlen
    match rest, hlen with
    | b0 :: b1 :: b2 :: b3 :: b4 :: b5 :: b6 :: b7 :: b8 :: b9 :: b10 ::
        b11 :: b12 :: b13 :: b14 :: b15 :: rest', _ =>
        simp [__handle_dirty_rectangle_event]

/-- C6 counterexample to the claim as stated: one 16-byte record arriving
on the dirty-rectangle channel with a null registered handler is not
silently dropped — the dispatch loop performs a call through the null
pointer. -/
theorem dirty_rectangle_null_handler_called :
    __handle_dirty_rectangle_event none true true
        [0, 0, 0, 0, 0, 0, 0, 0, 0, 0, 0, 0, 0, 0, 0, 0] =
      [(none, 0, 0, 0, 0)] ∧
    [((none : Option Nat), 0, 0, 0, 0)] ≠ [] := by
  exact ⟨rfl, by simp⟩

/-- Witness for `handler_registration_and_null_drop`: a null set-display
handler drops the event, while a null dirty-rectangle handler with one
16-byte record pending leads to a (null) call. -/
theorem handler_registration_and_null_drop_witness :
    __handle_set_display_request none 1920 1080 7680 = [] ∧
    __handle_dirty_rectangle_event none true true
      [0, 0, 0, 0, 0, 0, 0, 0, 0, 0, 0, 0, 0, 0, 0, 0] ≠ [] := by
  have hthm := handler_registration_and_null_drop
    (pv_display_backend_handlers.mk none none none none none) none none
    1920 1080 7680 3 4 5 7 [0, 0, 0, 0, 0, 0, 0, 0, 0, 0, 0, 0, 0, 0, 0, 0]
  exact ⟨hthm.2.2.1, hthm.2.2.2.2.2.2.2.2 (by norm_num)⟩

/-! ## Cursor image loading (`copy_image`,
`pv_display_load_cursor_image`) -/

/-- `copy_image` (`pv_display_helper.c:757`): for each of the 64 cursor
rows, rows past `source_height` are fully zeroed (transparent); other rows
copy `source_stride` bytes from the source (whose row pointer advances by
`source_stride`) and zero-fill the remaining `stride_difference` bytes.
The destination rows are laid out consecutively with
`destination_stride` bytes each. -/
def copy_image (source : List Nat) (source_height source_stride
    stride_difference destination_stride : Nat) : List Nat :=
  ((List.range PV_DRIVER_CURSOR_HEIGHT).map (fun y =>
    if y < source_height then
      (source.drop (y * source_stride)).take source_stride ++
        List.replicate stride_difference 0
    else
      List.replicate destination_stride 0)).join

/-- `pv_display_load_cursor_image` (`pv_display_helper.c:805`): rejects
images wider or taller than 64 with `-EINVAL`; rejects a display without a
cursor buffer with `-EINVAL`; otherwise fills the 64×64 ARGB8888 cursor
buffer via `copy_image` (strides in bytes: 4·width source, 256
destination) and sends an `UPDATE_CURSOR` event packet
(`__send_cursor_update_unsynchronized`, called at the end of
`copy_image`).  Returns the C return code, the new cursor buffer contents,
and whether the `UPDATE_CURSOR` packet was sent. -/
def pv_display_load_cursor_image (cursor_image_present : Bool)
    (image : List Nat) (source_width source_height : Nat) :
    Int × Option (List Nat) × Bool :=
  if PV_DRIVER_CURSOR_WIDTH < source_width ∨
      PV_DRIVER_CURSOR_HEIGHT < source_height then
    (-22, none, false)                                     -- -EINVAL
  else if ¬cursor_image_present then
    (-22, none, false)                                     -- -EINVAL
  else
    (0, some (copy_image image source_height (4 * source_width)
        (256 - 4 * source_width) 256), true)

lemma join_length_of_forall (ls : List (List Nat)) (n : Nat)
    (hn : ∀ l ∈ ls, l.length = n) : ls.join.length = ls.length * n := by
  induction ls with
  | nil => simp
  | cons a t ih =>
      simp only [List.join_cons, List.length_append, List.length_cons]
      rw [hn a (by simp), ih (fun l hl => hn l (by simp [hl]))]
      ring

lemma join_getD_of_forall (ls : List (List Nat)) (n : Nat)
    (hn : ∀ l ∈ ls, l.length = n) :
    ∀ (r i : Nat), r < ls.length → i < n →
      ls.join.getD (n * r + i) 0 = (ls.getD r []).getD i 0 := by
  induction ls with
  | nil => intro r i hr hi; simp at hr
  | cons a t ih =>
      intro r i hr hi
      cases r with
      | zero =>
          have ha : a.length = n := hn a (by simp)
          simp only [List.join_cons, Nat.mul_zero, Nat.zero_add,
            List.getD_cons_zero]
          exact List.getD_append a t.join 0 i (by omega)
      | succ r =>
          have ha : a.length = n := hn a (by simp)
          simp only [List.join_cons, List.getD_cons_succ]
          have hidx : n * (r + 1) + i = a.length + (n * r + i) := by
            rw [ha]; ring
          rw [hidx, List.getD_append_right a t.join 0 _ (by omega)]
          have : a.length + (n * r + i) - a.length = n * r + i := by omega
          rw [this]
          exact ih (fun l hl => hn l (by simp [hl])) r i (by simpa using hr) hi

lemma getD_take_lt (l : List Nat) (n m : Nat) (h : m < n) :
    (l.take n).getD m 0 = l.getD m 0 := by
  simp [List.getD_eq_getElem?_getD, List.getElem?_take_of_lt h]

lemma getD_replicate (n m a : Nat) :
    (List.replicate n a).getD m 0 = if m < n then a else 0 := by
  by_cases h : m < n <;>
    simp [List.getD_eq_getElem?_getD, List.getElem?_replicate, h]

lemma copy_image_row_length (image : List Nat) (w h : Nat)
    (hw : w ≤ 64) (hlen : image.length = 4 * w * h) :
    ∀ l ∈ (List.range PV_DRIVER_CURSOR_HEIGHT).map (fun y =>
      if y < h then
        (image.drop (y * (4 * w))).take (4 * w) ++
          List.replicate (256 - 4 * w) 0
      else List.replicate 256 0), l.length = 256 := by
  intro l hl
  simp only [List.mem_map, List.mem_range] at hl
  obtain ⟨y, hy, rfl⟩ := hl
  by_cases hyh : y < h
  · simp only [if_pos hyh, List.length_append, List.length_take,
      List.length_drop, List.length_replicate, hlen]
    have h1 : (y + 1) * (4 * w) ≤ h * (4 * w) := Nat.mul_le_mul_right _ hyh
    have e1 : (y + 1) * (4 * w) = y * (4 * w) + 4 * w := by ring
    have e2 : h * (4 * w) = 4 * w * h := by ring
    omega
  · simp only [if_neg hyh, List.length_replicate]

/-- C7: `load_cursor_image` rejects source images wider or taller than 64
with `-EINVAL` and sends nothing; otherwise it produces a 64×64 ARGB8888
buffer (16384 bytes, 256-byte rows) equal to the source in the top-left
`w × h` pixel region and zero in every byte outside it, and sends an
`UPDATE_CURSOR` event packet. -/
theorem load_cursor_image_clip (image : List Nat) (w h : Nat) :
    (64 < w ∨ 64 < h →
      pv_display_load_cursor_image true image w h = (-22, none, false)) ∧
    (w ≤ 64 → h ≤ 64 → image.length = 4 * w * h →
      pv_display_load_cursor_image true image w h =
        (0, some (copy_image image h (4 * w) (256 - 4 * w) 256), true) ∧
      (copy_image image h (4 * w) (256 - 4 * w) 256).length = 16384 ∧
      ∀ r, r < 64 → ∀ i, i < 256 →
        (copy_image image h (4 * w) (256 - 4 * w) 256).getD (256 * r + i) 0 =
          if r < h ∧ i < 4 * w then image.getD (r * (4 * w) + i) 0
          else 0) := by
  constructor
  · intro hbig
    simp only [pv_display_load_cursor_image, PV_DRIVER_CURSOR_WIDTH,
      PV_DRIVER_CURSOR_HEIGHT, if_pos hbig]
  · intro hw hh hlen
    have hr := copy_image_row_length image w h hw hlen
    have hbig : ¬ (PV_DRIVER_CURSOR_WIDTH < w ∨ PV_DRIVER_CURSOR_HEIGHT < h) := by
      simp only [PV_DRIVER_CURSOR_WIDTH, PV_DRIVER_CURSOR_HEIGHT, not_or,
        Nat.not_lt]
      omega
    refine ⟨?_, ?_, ?_⟩
    · simp [pv_display_load_cursor_image, hbig]
    · unfold copy_image
      rw [join_length_of_forall _ 256 hr]
      simp only [List.length_map, List.length_range, PV_DRIVER_CURSOR_HEIGHT]
    · intro r hrr i hi
      unfold copy_image
      rw [join_getD_of_forall _ 256 hr r i
        (by simp only [List.length_map, List.length_range,
          PV_DRIVER_CURSOR_HEIGHT]; omega) hi]
      have hgetrow : ((List.range PV_DRIVER_CURSOR_HEIGHT).map (fun y =>
          if y < h then
            (image.drop (y * (4 * w))).take (4 * w) ++
              List.replicate (256 - 4 * w) 0
          else List.replicate 256 0)).getD r [] =
          (if r < h then
            (image.drop (r * (4 * w))).take (4 * w) ++
              List.replicate (256 - 4 * w) 0
          else List.replicate 256 0) := by
        have hr64 : r < PV_DRIVER_CURSOR_HEIGHT := by
          simp only [PV_DRIVER_CURSOR_HEIGHT]; omega
        rw [List.getD_eq_getElem?_getD, List.getElem?_map,
          List.getElem?_range hr64]
        rfl
      rw [hgetrow]
      by_cases hrh : r < h
      · rw [if_pos hrh]
        by_cases hiw : i < 4 * w
        · rw [if_pos ⟨hrh, hiw⟩]
          have htlen : ((image.drop (r * (4 * w))).take (4 * w)).length =
              4 * w := by
            simp only [List.length_take, List.length_drop, hlen]
            have h1 : (r + 1) * (4 * w) ≤ h * (4 * w) :=
              Nat.mul_le_mul_right _ hrh
            have e1 : (r + 1) * (4 * w) = r * (4 * w) + 4 * w := by ring
            have e2 : h * (4 * w) = 4 * w * h := by ring
            omega
          rw [List.getD_append _ _ _ _ (by omega), getD_take_lt _ _ _ hiw,
            getD_drop]
        · rw [if_neg (by tauto)]
          have htlen : ((image.drop (r * (4 * w))).take (4 * w)).length =
              4 * w := by
            simp only [List.length_take, List.length_drop, hlen]
            have h1 : (r + 1) * (4 * w) ≤ h * (4 * w) :=
              Nat.mul_le_mul_right _ hrh
            have e1 : (r + 1) * (4 * w) = r * (4 * w) + 4 * w := by ring
            have e2 : h * (4 * w) = 4 * w * h := by ring
            omega
          rw [List.getD_append_right _ _ _ _ (by omega), getD_replicate]
          rw [htlen]
          have : i - 4 * w < 256 - 4 * w := by omega
          simp [this]
      · rw [if_neg hrh, if_neg (by tauto), getD_replicate, if_pos hi]

/-- Witness for `load_cursor_image_clip`: a 1×1 all-0xFF source image is
accepted, triggers the `UPDATE_CURSOR` packet, fills pixel (0,0) with the
source bytes and zeroes byte 4 of row 0 and byte 0 of row 1. -/
theorem load_cursor_image_clip_witness :
    pv_display_load_cursor_image true [255, 255, 255, 255] 1 1 =
      (0, some (copy_image [255, 255, 255, 255] 1 4 252 256), true) ∧
    (copy_image [255, 255, 255, 255] 1 4 252 256).getD 0 0 =
      (if 0 < 1 ∧ 0 < 4 then ([255, 255, 255, 255] : List Nat).getD 0 0
        else 0) ∧
    (copy_image [255, 255, 255, 255] 1 4 252 256).getD 4 0 =
      (if 0 < 1 ∧ 4 < 4 then ([255, 255, 255, 255] : List Nat).getD 4 0
        else 0) := by
  have hthm := (load_cursor_image_clip [255, 255, 255, 255] 1 1).2
    (by norm_num) (by norm_num) (by norm_num)
  refine ⟨hthm.1, ?_, ?_⟩
  · have := hthm.2.2 0 (by norm_num) 0 (by norm_num)
    simpa using this
  · have := hthm.2.2 0 (by norm_num) 4 (by norm_num)
    simpa using this

end PvDisplayHelper
